import Mathlib

set_option autoImplicit false

/-!
Verification of the Chanina worker-lifecycle subsystem.

This file gives a shallow embedding of the profile checkout/release logic
(`init_profile` / `remove_profile` in `chanina/core/chanina.py`), the task
dispatch body built by `Libretto._register_as_task`
(`chanina/core/libretti.py`), the browser-context initialization and
teardown of `WorkerSession` (`chanina/core/worker_session.py`), and the
worker shutdown hook `ChaninaApplication._shutdown_worker`, and proves the
specification claims about them.

Filesystem state is modelled explicitly: an absolute path is a list of name
components, a filesystem is a list of entries (path plus directory flag),
and the nondeterministic parts of the environment (the generated uuid, the
success of the tree copy, the set of paths whose deletion fails) are passed
as explicit oracle arguments.
-/

namespace Chanina

/-- A filesystem name component (no slash inside). -/
abbrev Name := String

/-- A resolved absolute path: its components from the filesystem root. -/
abbrev AbsPath := List Name

/-- A path string as the Python code passes it around: either absolute or
relative to the current working directory. The empty string (`Path("")`,
which pathlib reads as `"."`) is `⟨false, []⟩`. -/
structure RawPath where
  isAbs : Bool
  comps : List Name
deriving DecidableEq, Repr

/-- Python `Path(p).resolve()` against the current working directory `cwd`:
an absolute path is already resolved, a relative one is appended to `cwd`.
(`Path("")` resolves to the working directory itself.) -/
def resolve (cwd : AbsPath) (p : RawPath) : AbsPath :=
  if p.isAbs then p.comps else cwd ++ p.comps

/-- Python truthiness of the path string: only the empty string is falsy. -/
def RawPath.truthyStr (p : RawPath) : Bool := p.isAbs || !p.comps.isEmpty

/-- Python `str(p)` for a resolved absolute path: `"/a/b"` for components
`[a, b]`. (The degenerate root `[]` renders as `""` where Python prints
`"/"`; no claim involves the root path, and the substring test below agrees
on both renderings.) -/
def pathStr (p : AbsPath) : String := p.foldl (fun acc n => acc ++ "/" ++ n) ""

/-- Bool test that `needle` occurs as a contiguous run inside `hay`. -/
def strContains (hay needle : String) : Bool :=
  (List.range (hay.toList.length + 1)).any
    (fun i => needle.toList.isPrefixOf (hay.toList.drop i))

/-- Python substring test `"tmp:" in str(p)` from `remove_profile`. -/
def containsTmpMarker (p : AbsPath) : Bool :=
  strContains (pathStr p) "tmp:"

/-- One filesystem entry: its absolute path and whether it is a directory. -/
structure Entry where
  path : AbsPath
  isDir : Bool
deriving DecidableEq, Repr

/-- A filesystem: the list of entries present on disk. -/
abbrev Fs := List Entry

/-- Python `p.exists()`: some entry has exactly this path. -/
def Fs.existsAt (fs : Fs) (p : AbsPath) : Bool := fs.any (fun e => e.path == p)

/-- Python `p.is_dir()`: some directory entry has exactly this path. -/
def Fs.isDirAt (fs : Fs) (p : AbsPath) : Bool :=
  fs.any (fun e => e.path == p && e.isDir)

/-- Python `os.mkdir(p)`: add a directory entry. (The OS-level
parent-must-exist precondition of `os.mkdir` is not modelled; claims about
this branch assume the create succeeds, as the spec does.) -/
def Fs.mkdir (fs : Fs) (p : AbsPath) : Fs := fs ++ [⟨p, true⟩]

/-- The ignore test of `shutil.ignore_patterns("*.lock", "lock")` on one
name: fnmatch of the pattern `*.lock` is a suffix test, and the pattern
`lock` matches exactly the name `lock`. -/
def isLockName (n : Name) : Bool := n.endsWith ".lock" || n == "lock"

/-- Python `shutil.copytree(src, dest, ignore=ignore_patterns("*.lock",
"lock"))`: every entry of the source tree is recreated under `dest` at the
same relative path, except that the ignore callback is applied to the entry
names at every directory level, so an entry is copied exactly when no
component of its relative path matches a lock pattern (a matching directory
prunes its whole subtree). `dest` itself (relative path `[]`) is created. -/
def Fs.copytree (fs : Fs) (src dest : AbsPath) : Fs :=
  fs ++ fs.filterMap (fun e =>
    if src.isPrefixOf e.path then
      let rel := e.path.drop src.length
      if rel.all (fun c => !isLockName c) then some ⟨dest ++ rel, e.isDir⟩
      else none
    else none)

/-- Python `shutil.rmtree(p, ignore_errors=True)`: best-effort recursive
delete of the subtree rooted at `p`; `errs` is the oracle set of paths whose
deletion the OS refuses, which are left in place; no error is ever raised. -/
def Fs.rmtree (fs : Fs) (p : AbsPath) (errs : List AbsPath) : Fs :=
  fs.filter (fun e => !p.isPrefixOf e.path || errs.contains e.path)

/-- The ambient state an operation sees: the filesystem, the worker
process's current working directory, and the log so far. -/
structure World where
  fs : Fs
  cwd : AbsPath
  log : List String
deriving DecidableEq, Repr

/-- The Python exceptions raised by the embedded code. `valueError` is
`ValueError`, so it realizes both `InvalidProfileError` (profile source
exists but is not a directory) and `UnsupportedBrowserError` (unknown
browser name) of the specification's taxonomy. -/
inductive PyError where
  | valueError (msg : String)
deriving DecidableEq, Repr

/-- Embedding of `remove_profile` (chanina.py): resolve the path; if it is
not an existing directory raise `ValueError`; if the path string does not
contain the substring `"tmp:"` treat it as a persistent profile and do
nothing; otherwise delete the tree best-effort (`ignore_errors=True`),
taking `errs` as the oracle of undeletable paths. -/
def remove_profile (w : World) (profile_path : RawPath) (errs : List AbsPath) :
    Except PyError World :=
  let p := resolve w.cwd profile_path
  if !(w.fs.isDirAt p) then
    .error (.valueError (pathStr p ++ " is not a valid directory."))
  else if !(containsTmpMarker p) then
    .ok { w with log := w.log ++
            [pathStr p ++ " is a newly created persistent profile, bypassing the deletion."] }
  else
    .ok { w with
            fs := w.fs.rmtree p errs,
            log := w.log ++ ["Deleting temporary profile " ++ pathStr p ++ " ..."] }

/-- Embedding of `init_profile` (chanina.py). Oracle arguments: `uuid` is
the string produced by `uuid.uuid4()`; `copyOk` says whether the
`shutil.copytree` call succeeds or raises `shutil.Error`; on failure
`partialCopy` lists the relative paths (with directory flags) that were
copied before the error (the destination directory itself always exists by
then, since `copytree` creates it before copying and only raises its
aggregate `shutil.Error` afterwards); `errs` feeds the cleanup `rmtree`.
Returns the new world and the lease string: the resolved source (absolute)
for a freshly created persistent profile, the relative `"tmp:" ++ uuid` for
a temporary copy, and the empty string after a failed copy. -/
def init_profile (w : World) (profile_path : RawPath) (uuid : Name)
    (copyOk : Bool) (partialCopy : List (List Name × Bool)) (errs : List AbsPath) :
    Except PyError (World × RawPath) :=
  let src := resolve w.cwd profile_path
  if !(w.fs.existsAt src) then
    .ok ({ w with
            fs := w.fs.mkdir src,
            log := w.log ++
              [pathStr src ++ " doesn't exist, defaulting to creating a persistent one."] },
          ⟨true, src⟩)
  else if !(w.fs.isDirAt src) then
    .error (.valueError (pathStr src ++ " is not a valid directory."))
  else
    let destName := "tmp:" ++ uuid
    let dest : RawPath := ⟨false, [destName]⟩
    let destAbs := w.cwd ++ [destName]
    if copyOk then
      .ok ({ w with fs := w.fs.copytree src destAbs }, dest)
    else
      let w1 : World := { w with
        fs := w.fs ++ (⟨destAbs, true⟩ ::
                partialCopy.map (fun rd => ⟨destAbs ++ rd.1, rd.2⟩)),
        log := w.log ++
          [pathStr src ++ " could not be copied to be used as a browser profile.",
           "shutil.Error"] }
      match remove_profile w1 dest errs with
      | .ok w2 => .ok (w2, ⟨false, []⟩)
      | .error e => .error e

/-- The in-memory worker session object, as far as dispatch is concerned. -/
structure WorkerSessionObj where
  browser_name : Name
  headless : Bool
  profile : RawPath
deriving DecidableEq, Repr

/-- Python values as they flow through task dispatch. -/
inductive Value where
  | vNone
  | vBool (b : Bool)
  | vInt (n : Int)
  | vStr (s : String)
  | vList (xs : List Value)
  | vDict (entries : List (String × Value))
  | vSession (s : WorkerSessionObj)

/-- Python truthiness, as tested by `if arg:` in the task body. An object
such as the worker session is always truthy. -/
def truthy : Value → Bool
  | .vNone => false
  | .vBool b => b
  | .vInt n => n != 0
  | .vStr s => s != ""
  | .vList xs => !xs.isEmpty
  | .vDict es => !es.isEmpty
  | .vSession _ => true

/-- The value of `self.app.worker_session`: the session object when one is
live, Python `None` otherwise. -/
def sessionValue : Option WorkerSessionObj → Value
  | none => .vNone
  | some s => .vSession s

/-- Embedding of the task body built by `Libretto._register_as_task`
(libretti.py): drop falsy positional arguments, then call `self.func` with
the session injected before the trailing kwargs dict when
`playwright_enabled`. The result is the exact positional argument list the
wrapped function receives. -/
def Libretto.taskArgs (playwright_enabled : Bool)
    (worker_session : Option WorkerSessionObj)
    (args : List Value) (kwargs : List (String × Value)) : List Value :=
  let parsed_args := args.filter truthy
  if playwright_enabled then
    if !parsed_args.isEmpty then
      parsed_args ++ [sessionValue worker_session, .vDict kwargs]
    else
      [sessionValue worker_session, .vDict kwargs]
  else
    if !parsed_args.isEmpty then
      parsed_args ++ [.vDict kwargs]
    else
      [.vDict kwargs]

/-- C1: every dispatched work item first drops the falsy positional
arguments; the wrapped function is then invoked in the stable shape
`(*effectiveArgs, session, configMapping)` when session support is enabled
(the two code branches for empty and non-empty effective arguments produce
exactly this), `(*effectiveArgs, configMapping)` when it is disabled, and
the configuration mapping is always the trailing argument and always
present. -/
theorem dispatch_stable_shape (enabled : Bool) (ws : Option WorkerSessionObj)
    (args : List Value) (kwargs : List (String × Value)) :
    Libretto.taskArgs enabled ws args kwargs =
      (args.filter truthy) ++ (if enabled then [sessionValue ws] else [])
        ++ [Value.vDict kwargs] := by
  unfold Libretto.taskArgs
  cases enabled <;> cases h : (args.filter truthy).isEmpty <;>
    simp_all [List.isEmpty_iff]

/-- C2 counterexample: with session support enabled and no live session
(`self._worker_session` is `None`), dispatch does not fail: the wrapped
function is invoked, and it receives Python `None` in the session
position. -/
theorem dispatch_none_session_counterexample :
    Libretto.taskArgs true none [] [] = [Value.vNone, Value.vDict []] := rfl

/-- C2 amended: for every dispatch with session support enabled while no
live session exists, dispatch does not raise; the wrapped function is
invoked with Python `None` in the session position, immediately before the
trailing configuration mapping. -/
theorem dispatch_absent_session_passes_none (args : List Value)
    (kwargs : List (String × Value)) :
    Libretto.taskArgs true none args kwargs =
      (args.filter truthy) ++ [Value.vNone, Value.vDict kwargs] := by
  unfold Libretto.taskArgs
  cases h : (args.filter truthy).isEmpty <;> simp_all [List.isEmpty_iff, sessionValue]

/-! Helper lemmas shared by several proofs. -/

/-- A list is a Bool-prefix of itself followed by anything. -/
theorem isPrefixOf_append_self {α : Type} [BEq α] [LawfulBEq α] (l r : List α) :
    l.isPrefixOf (l ++ r) = true := by
  simp [List.isPrefixOf_iff_prefix]

/-- A Bool-prefix splits the longer list at the prefix length. -/
theorem eq_append_drop_of_isPrefixOf {α : Type} [BEq α] [LawfulBEq α]
    {l p : List α}
    (h : l.isPrefixOf p = true) : p = l ++ p.drop l.length := by
  rw [List.isPrefixOf_iff_prefix] at h
  obtain ⟨t, rfl⟩ := h
  simp

/-- A directory entry at a path in particular makes the path exist. -/
theorem existsAt_of_isDirAt {fs : Fs} {p : AbsPath}
    (h : fs.isDirAt p = true) : fs.existsAt p = true := by
  rw [Fs.isDirAt, List.any_eq_true] at h
  obtain ⟨e, he, hcond⟩ := h
  rw [Fs.existsAt, List.any_eq_true]
  exact ⟨e, he, (Bool.and_eq_true _ _ |>.mp hcond).1⟩

/-- If the character run of `needle` occurs inside `hay`, the substring
test succeeds. -/
theorem strContains_of_decomp (hay needle : String) (pre post : List Char)
    (h : hay.toList = pre ++ needle.toList ++ post) :
    strContains hay needle = true := by
  rw [strContains, List.any_eq_true]
  refine ⟨pre.length, ?_, ?_⟩
  · rw [List.mem_range, h]
    simp
    omega
  · rw [h, List.append_assoc, List.drop_left]
    exact isPrefixOf_append_self _ _

/-- The path string of a path whose last component starts with `"tmp:"`
contains the temporary-lease marker. -/
theorem containsTmpMarker_last (l : AbsPath) (u : String) :
    containsTmpMarker (l ++ ["tmp:" ++ u]) = true := by
  have hps : pathStr (l ++ ["tmp:" ++ u]) = (pathStr l ++ "/") ++ ("tmp:" ++ u) := by
    simp [pathStr, String.append_assoc]
  apply strContains_of_decomp _ _ (pathStr l ++ "/").data u.data
  rw [String.toList, hps]
  simp [String.data_append, String.toList, List.append_assoc]

/-- After a best-effort delete with no OS failures, nothing remains under
the deleted root. -/
theorem rmtree_clears {fs : Fs} {p : AbsPath} :
    ∀ e ∈ fs.rmtree p [], p.isPrefixOf e.path = false := by
  intro e he
  rw [Fs.rmtree, List.mem_filter] at he
  have hcond := he.2
  cases hpre : p.isPrefixOf e.path <;> simp_all

/-- C4: for every source path that does not exist on disk, `init_profile`
creates it as a fresh directory, logs the fallback, and returns a
persistent lease whose path equals the resolved source path; no copy is
made and no other filesystem entry is touched. -/
theorem checkout_nonexistent_creates_persistent
    (w : World) (pp : RawPath) (uuid : Name) (copyOk : Bool)
    (partialCopy : List (List Name × Bool)) (errs : List AbsPath)
    (h : w.fs.existsAt (resolve w.cwd pp) = false) :
    init_profile w pp uuid copyOk partialCopy errs =
      .ok ({ w with
              fs := w.fs.mkdir (resolve w.cwd pp),
              log := w.log ++
                [pathStr (resolve w.cwd pp) ++
                  " doesn't exist, defaulting to creating a persistent one."] },
            ⟨true, resolve w.cwd pp⟩) := by
  rw [init_profile]
  simp [h]

/-- Closed witness for `checkout_nonexistent_creates_persistent` at a
concrete world. -/
def wC4 : World := { fs := [⟨["profiles"], true⟩], cwd := ["work"], log := [] }

/-- The source path used by the C4 witness. -/
def ppC4 : RawPath := ⟨true, ["profiles", "newprof"]⟩

/-- C4 witness: the hypothesis and the conclusion both hold at `wC4`. -/
theorem checkout_nonexistent_creates_persistent_witness :
    wC4.fs.existsAt (resolve wC4.cwd ppC4) = false ∧
    init_profile wC4 ppC4 "u0" true [] [] =
      .ok ({ wC4 with
              fs := wC4.fs.mkdir (resolve wC4.cwd ppC4),
              log := wC4.log ++
                [pathStr (resolve wC4.cwd ppC4) ++
                  " doesn't exist, defaulting to creating a persistent one."] },
            ⟨true, resolve wC4.cwd ppC4⟩) :=
  ⟨rfl, checkout_nonexistent_creates_persistent wC4 ppC4 "u0" true [] [] rfl⟩

/-- C8: for every source path that exists but is not a directory,
`init_profile` raises `ValueError` (the realization of
`InvalidProfileError`) and returns no lease. -/
theorem checkout_nondirectory_fails
    (w : World) (pp : RawPath) (uuid : Name) (copyOk : Bool)
    (partialCopy : List (List Name × Bool)) (errs : List AbsPath)
    (hex : w.fs.existsAt (resolve w.cwd pp) = true)
    (hdir : w.fs.isDirAt (resolve w.cwd pp) = false) :
    init_profile w pp uuid copyOk partialCopy errs =
      .error (.valueError
        (pathStr (resolve w.cwd pp) ++ " is not a valid directory.")) := by
  rw [init_profile]
  simp [hex, hdir]

/-- Concrete world for the C8 witness: the source path is a plain file. -/
def wC8 : World := { fs := [⟨["profiles"], true⟩, ⟨["profiles", "default"], false⟩],
                     cwd := ["work"], log := [] }

/-- C8 witness: hypotheses and conclusion at the concrete world `wC8`. -/
theorem checkout_nondirectory_fails_witness :
    wC8.fs.existsAt (resolve wC8.cwd ⟨true, ["profiles", "default"]⟩) = true ∧
    wC8.fs.isDirAt (resolve wC8.cwd ⟨true, ["profiles", "default"]⟩) = false ∧
    init_profile wC8 ⟨true, ["profiles", "default"]⟩ "u0" true [] [] =
      .error (.valueError
        (pathStr (resolve wC8.cwd ⟨true, ["profiles", "default"]⟩) ++
          " is not a valid directory.")) :=
  ⟨rfl, rfl,
    checkout_nondirectory_fails wC8 ⟨true, ["profiles", "default"]⟩ "u0" true [] [] rfl rfl⟩

/-- C10 amended: for every path argument that does not resolve to an
existing directory on disk (a path already deleted by a previous release,
or a file path), `remove_profile` raises `ValueError`; release is therefore
not idempotent and not total. (The empty-string lease, by contrast,
resolves to the current working directory, so it is not in this domain
whenever the working directory exists.) -/
theorem release_invalid_path_raises
    (w : World) (pp : RawPath) (errs : List AbsPath)
    (h : w.fs.isDirAt (resolve w.cwd pp) = false) :
    remove_profile w pp errs =
      .error (.valueError
        (pathStr (resolve w.cwd pp) ++ " is not a valid directory.")) := by
  rw [remove_profile]
  simp [h]

/-- Concrete world for the C10 theorems: the working directory exists, and
`["work", "gone"]` does not. -/
def wC10 : World := { fs := [⟨["work"], true⟩], cwd := ["work"], log := [] }

/-- C10 witness: a deleted path is not a directory, and release raises. -/
theorem release_invalid_path_raises_witness :
    wC10.fs.isDirAt (resolve wC10.cwd ⟨true, ["work", "gone"]⟩) = false ∧
    remove_profile wC10 ⟨true, ["work", "gone"]⟩ [] =
      .error (.valueError
        (pathStr (resolve wC10.cwd ⟨true, ["work", "gone"]⟩) ++
          " is not a valid directory.")) :=
  ⟨rfl, release_invalid_path_raises wC10 ⟨true, ["work", "gone"]⟩ [] rfl⟩

/-- C10 counterexample: the empty-string lease (the value a failed copy
returns) resolves to the current working directory, which is an existing
directory, so `remove_profile` does not raise `ValueError` on it: it takes
the persistent-profile branch and returns normally. -/
theorem release_empty_string_counterexample :
    remove_profile wC10 ⟨false, []⟩ [] =
      .ok { wC10 with
              log := ["/work is a newly created persistent profile, bypassing the deletion."] } :=
  rfl

/-- C5 amended: for every lease path that resolves to an existing
directory, release returns normally for every deletion-failure oracle
(errors suppressed, never propagated); if the resolved path string contains
the `"tmp:"` marker the tree is deleted best-effort (everything under it is
gone when the OS reports no failure), and if it does not, release is a
no-op that leaves the filesystem unchanged. A persistent lease whose
resolved path happens to contain `"tmp:"` as a substring is therefore
deleted, not retained (see the counterexample). -/
theorem release_lease_behavior
    (w : World) (pp : RawPath) (errs : List AbsPath)
    (hdir : w.fs.isDirAt (resolve w.cwd pp) = true) :
    (containsTmpMarker (resolve w.cwd pp) = true →
      remove_profile w pp errs =
        .ok { w with
                fs := w.fs.rmtree (resolve w.cwd pp) errs,
                log := w.log ++
                  ["Deleting temporary profile " ++ pathStr (resolve w.cwd pp) ++ " ..."] } ∧
      (∀ e ∈ w.fs.rmtree (resolve w.cwd pp) [],
        (resolve w.cwd pp).isPrefixOf e.path = false)) ∧
    (containsTmpMarker (resolve w.cwd pp) = false →
      remove_profile w pp errs =
        .ok { w with
                log := w.log ++
                  [pathStr (resolve w.cwd pp) ++
                    " is a newly created persistent profile, bypassing the deletion."] }) := by
  refine ⟨fun hm => ⟨?_, fun e he => rmtree_clears e he⟩, fun hm => ?_⟩ <;>
    rw [remove_profile] <;> simp [hdir, hm]

/-- Concrete world for the C5 witness: a temporary lease directory. -/
def wC5w : World :=
  { fs := [⟨["work"], true⟩, ⟨["work", "tmp:u5"], true⟩,
           ⟨["work", "tmp:u5", "a.txt"], false⟩],
    cwd := ["work"], log := [] }

/-- C5 witness: the amended statement instantiated at the temporary lease
`/work/tmp:u5`. -/
theorem release_lease_behavior_witness :
    wC5w.fs.isDirAt (resolve wC5w.cwd ⟨false, ["tmp:u5"]⟩) = true ∧
    ((containsTmpMarker (resolve wC5w.cwd ⟨false, ["tmp:u5"]⟩) = true →
      remove_profile wC5w ⟨false, ["tmp:u5"]⟩ [] =
        .ok { wC5w with
                fs := wC5w.fs.rmtree (resolve wC5w.cwd ⟨false, ["tmp:u5"]⟩) [],
                log := wC5w.log ++
                  ["Deleting temporary profile " ++
                    pathStr (resolve wC5w.cwd ⟨false, ["tmp:u5"]⟩) ++ " ..."] } ∧
      (∀ e ∈ wC5w.fs.rmtree (resolve wC5w.cwd ⟨false, ["tmp:u5"]⟩) [],
        (resolve wC5w.cwd ⟨false, ["tmp:u5"]⟩).isPrefixOf e.path = false)) ∧
    (containsTmpMarker (resolve wC5w.cwd ⟨false, ["tmp:u5"]⟩) = false →
      remove_profile wC5w ⟨false, ["tmp:u5"]⟩ [] =
        .ok { wC5w with
                log := wC5w.log ++
                  [pathStr (resolve wC5w.cwd ⟨false, ["tmp:u5"]⟩) ++
                    " is a newly created persistent profile, bypassing the deletion."] })) :=
  ⟨rfl, release_lease_behavior wC5w ⟨false, ["tmp:u5"]⟩ [] rfl⟩

/-- Starting world for the C5 counterexample. -/
def wC5 : World := { fs := [⟨["work"], true⟩], cwd := ["work"], log := [] }

/-- The world after checkout created the persistent profile `/work/tmp:prof`. -/
def w1C5 : World :=
  { fs := [⟨["work"], true⟩, ⟨["work", "tmp:prof"], true⟩],
    cwd := ["work"],
    log := ["/work/tmp:prof doesn't exist, defaulting to creating a persistent one."] }

/-- The world after release wrongly deleted that persistent profile. -/
def w2C5 : World :=
  { fs := [⟨["work"], true⟩],
    cwd := ["work"],
    log := ["/work/tmp:prof doesn't exist, defaulting to creating a persistent one.",
            "Deleting temporary profile /work/tmp:prof ..."] }

/-- C5 counterexample: checkout of the non-existent source `tmp:prof`
creates a persistent lease, but release deletes that persistent lease's
directory from disk (its path string contains `"tmp:"`, so the substring
test misclassifies it as temporary) — release on a persistent lease is not
always a no-op. -/
theorem release_persistent_lease_deleted_counterexample :
    init_profile wC5 ⟨false, ["tmp:prof"]⟩ "u" true [] [] =
      .ok (w1C5, ⟨true, ["work", "tmp:prof"]⟩) ∧
    remove_profile w1C5 ⟨true, ["work", "tmp:prof"]⟩ [] = .ok w2C5 ∧
    w2C5.fs.existsAt ["work", "tmp:prof"] = false :=
  ⟨rfl, rfl, rfl⟩

/-- Left cancellation for string append. -/
theorem string_append_left_cancel {a b c : String} (h : a ++ b = a ++ c) :
    b = c := by
  apply String.ext
  have hd := congrArg String.data h
  rw [String.data_append, String.data_append] at hd
  exact List.append_cancel_left hd

/-- Membership in a copied tree at a destination-relative path: when
nothing pre-existing sits under the destination, an entry at `dest ++ rel`
exists exactly when the source had the same entry at `src ++ rel` and no
component of `rel` matches a lock pattern. -/
theorem mem_copytree_dest {fs : Fs} {src dest : AbsPath} {rel : List Name}
    {d : Bool}
    (hfresh : ∀ e ∈ fs, dest.isPrefixOf e.path = false) :
    Entry.mk (dest ++ rel) d ∈ fs.copytree src dest ↔
      (Entry.mk (src ++ rel) d ∈ fs ∧
        rel.all (fun c => !isLockName c) = true) := by
  rw [Fs.copytree, List.mem_append]
  constructor
  · rintro (hmem | hmem)
    · exact absurd (hfresh _ hmem) (by simp [isPrefixOf_append_self])
    · rw [List.mem_filterMap] at hmem
      obtain ⟨e, he, hcond⟩ := hmem
      cases e with
      | mk pth dr =>
        simp only at hcond
        split at hcond
        case isTrue hpre =>
          split at hcond
          case isTrue hlok =>
            rw [Option.some.injEq, Entry.mk.injEq] at hcond
            obtain ⟨hpath, hdir⟩ := hcond
            have hdrop : pth.drop src.length = rel := List.append_cancel_left hpath
            have hsplit : pth = src ++ pth.drop src.length :=
              eq_append_drop_of_isPrefixOf hpre
            rw [hdrop] at hsplit hlok
            subst hdir
            rw [← hsplit]
            exact ⟨he, hlok⟩
          case isFalse hlok => exact absurd hcond (by simp)
        case isFalse hpre => exact absurd hcond (by simp)
  · rintro ⟨hmem, hlok⟩
    right
    rw [List.mem_filterMap]
    refine ⟨⟨src ++ rel, d⟩, hmem, ?_⟩
    have hpre : src.isPrefixOf (src ++ rel) = true := isPrefixOf_append_self _ _
    simp only [hpre, if_true, List.drop_left, hlok]

/-- C3: for every source path that is an existing directory, checkout
returns the temporary lease `"tmp:" ++ uuid` (the result of a successful
copy); the leased destination differs from the source path; any other
checkout that takes the copy branch with a different generated uuid returns
a different lease (uniqueness, with uuid4 freshness modelled as distinct
oracle values); and the destination tree holds exactly the source tree
minus the entries whose relative path has a component named `lock` or
matching `*.lock` (the ignore callback runs at every directory level, so a
matching directory prunes its whole subtree — the tree-minus-lock-entries
reading). -/
theorem checkout_existing_directory_copies
    (w : World) (pp : RawPath) (uuid : Name)
    (partialCopy : List (List Name × Bool)) (errs : List AbsPath)
    (hdir : w.fs.isDirAt (resolve w.cwd pp) = true)
    (hfresh : ∀ e ∈ w.fs, (w.cwd ++ ["tmp:" ++ uuid]).isPrefixOf e.path = false) :
    init_profile w pp uuid true partialCopy errs =
      .ok ({ w with
              fs := w.fs.copytree (resolve w.cwd pp) (w.cwd ++ ["tmp:" ++ uuid]) },
            ⟨false, ["tmp:" ++ uuid]⟩) ∧
    w.cwd ++ ["tmp:" ++ uuid] ≠ resolve w.cwd pp ∧
    (∀ (w2 : World) (pp2 : RawPath) (uuid2 : Name)
        (partialCopy2 : List (List Name × Bool)) (errs2 : List AbsPath)
        (w2' : World) (lease2 : RawPath),
      uuid2 ≠ uuid →
      w2.fs.isDirAt (resolve w2.cwd pp2) = true →
      init_profile w2 pp2 uuid2 true partialCopy2 errs2 = .ok (w2', lease2) →
      lease2 ≠ ⟨false, ["tmp:" ++ uuid]⟩) ∧
    (∀ (rel : List Name) (d : Bool),
      Entry.mk ((w.cwd ++ ["tmp:" ++ uuid]) ++ rel) d ∈
          w.fs.copytree (resolve w.cwd pp) (w.cwd ++ ["tmp:" ++ uuid]) ↔
        (Entry.mk (resolve w.cwd pp ++ rel) d ∈ w.fs ∧
          rel.all (fun c => !isLockName c) = true)) := by
  have hex := existsAt_of_isDirAt hdir
  refine ⟨?_, ?_, ?_, ?_⟩
  · rw [init_profile]
    simp [hex, hdir]
  · intro heq
    rw [Fs.isDirAt, List.any_eq_true] at hdir
    obtain ⟨e, he, hcond⟩ := hdir
    rw [Bool.and_eq_true, beq_iff_eq] at hcond
    have hfe := hfresh e he
    rw [hcond.1, ← heq] at hfe
    have hself : (w.cwd ++ ["tmp:" ++ uuid]).isPrefixOf (w.cwd ++ ["tmp:" ++ uuid]) = true := by
      simp [List.isPrefixOf_iff_prefix]
    rw [hself] at hfe
    exact absurd hfe (by simp)
  · intro w2 pp2 uuid2 partialCopy2 errs2 w2' lease2 hne hdir2 hinit
    have hex2 := existsAt_of_isDirAt hdir2
    rw [init_profile] at hinit
    simp [hex2, hdir2] at hinit
    intro hleq
    rw [← hinit.2] at hleq
    rw [RawPath.mk.injEq] at hleq
    have : "tmp:" ++ uuid2 = "tmp:" ++ uuid := by
      have := hleq.2
      simpa using this
    exact hne (string_append_left_cancel this)
  · intro rel d
    exact mem_copytree_dest hfresh

/-- Concrete world for the C3 witness, the spec scenario: the source
profile `/profiles/default` holds `a.txt` and `lock`. -/
def wC3 : World :=
  { fs := [⟨["profiles"], true⟩, ⟨["profiles", "default"], true⟩,
           ⟨["profiles", "default", "a.txt"], false⟩,
           ⟨["profiles", "default", "lock"], false⟩],
    cwd := ["work"], log := [] }

/-- The source path of the C3 witness. -/
def ppC3 : RawPath := ⟨true, ["profiles", "default"]⟩

/-- C3 witness: hypotheses and the full conclusion at the spec scenario. -/
theorem checkout_existing_directory_copies_witness :
    wC3.fs.isDirAt (resolve wC3.cwd ppC3) = true ∧
    (∀ e ∈ wC3.fs, (wC3.cwd ++ ["tmp:" ++ "u1"]).isPrefixOf e.path = false) ∧
    (init_profile wC3 ppC3 "u1" true [] [] =
      .ok ({ wC3 with
              fs := wC3.fs.copytree (resolve wC3.cwd ppC3) (wC3.cwd ++ ["tmp:" ++ "u1"]) },
            ⟨false, ["tmp:" ++ "u1"]⟩) ∧
    wC3.cwd ++ ["tmp:" ++ "u1"] ≠ resolve wC3.cwd ppC3 ∧
    (∀ (w2 : World) (pp2 : RawPath) (uuid2 : Name)
        (partialCopy2 : List (List Name × Bool)) (errs2 : List AbsPath)
        (w2' : World) (lease2 : RawPath),
      uuid2 ≠ "u1" →
      w2.fs.isDirAt (resolve w2.cwd pp2) = true →
      init_profile w2 pp2 uuid2 true partialCopy2 errs2 = .ok (w2', lease2) →
      lease2 ≠ ⟨false, ["tmp:" ++ "u1"]⟩) ∧
    (∀ (rel : List Name) (d : Bool),
      Entry.mk ((wC3.cwd ++ ["tmp:" ++ "u1"]) ++ rel) d ∈
          wC3.fs.copytree (resolve wC3.cwd ppC3) (wC3.cwd ++ ["tmp:" ++ "u1"]) ↔
        (Entry.mk (resolve wC3.cwd ppC3 ++ rel) d ∈ wC3.fs ∧
          rel.all (fun c => !isLockName c) = true))) :=
  ⟨rfl, by decide, checkout_existing_directory_copies wC3 ppC3 "u1" [] [] rfl (by decide)⟩

/-- Resolving a relative path appends it to the working directory. -/
theorem resolve_rel (cwd : AbsPath) (c : List Name) :
    resolve cwd ⟨false, c⟩ = cwd ++ c := rfl

/-- A filesystem that lists a directory entry at `p` after any prefix has a
directory at `p`. -/
theorem isDirAt_append_cons_self (fs : Fs) (p : AbsPath) (rest : List Entry) :
    (fs ++ Entry.mk p true :: rest).isDirAt p = true := by
  rw [Fs.isDirAt, List.any_eq_true]
  exact ⟨Entry.mk p true, by simp, by simp⟩

/-- C6: for every checkout whose directory copy fails (`shutil.Error`), the
copy is aborted and the partial destination is removed from disk before
checkout returns (shown with no OS deletion failures: nothing remains under
the destination), the failure is logged, and checkout returns the
empty-string lease representing failure rather than raising to the
caller. -/
theorem checkout_copy_failure_cleans_up
    (w : World) (pp : RawPath) (uuid : Name)
    (partialCopy : List (List Name × Bool))
    (hdir : w.fs.isDirAt (resolve w.cwd pp) = true) :
    ∃ w', init_profile w pp uuid false partialCopy [] = .ok (w', ⟨false, []⟩) ∧
      (∀ e ∈ w'.fs, (w.cwd ++ ["tmp:" ++ uuid]).isPrefixOf e.path = false) ∧
      w'.log = w.log ++
        [pathStr (resolve w.cwd pp) ++
          " could not be copied to be used as a browser profile.",
         "shutil.Error",
         "Deleting temporary profile " ++ pathStr (w.cwd ++ ["tmp:" ++ uuid]) ++
          " ..."] := by
  have hex := existsAt_of_isDirAt hdir
  have hmark : containsTmpMarker (w.cwd ++ ["tmp:" ++ uuid]) = true :=
    containsTmpMarker_last _ _
  have h_eq : init_profile w pp uuid false partialCopy [] =
      .ok ({ w with
              fs := (w.fs ++ Entry.mk (w.cwd ++ ["tmp:" ++ uuid]) true ::
                partialCopy.map
                  (fun rd => Entry.mk ((w.cwd ++ ["tmp:" ++ uuid]) ++ rd.1) rd.2)).rmtree
                (w.cwd ++ ["tmp:" ++ uuid]) [],
              log := w.log ++
                [pathStr (resolve w.cwd pp) ++
                  " could not be copied to be used as a browser profile.",
                 "shutil.Error",
                 "Deleting temporary profile " ++
                  pathStr (w.cwd ++ ["tmp:" ++ uuid]) ++ " ..."] },
            ⟨false, []⟩) := by
    rw [init_profile]
    simp [remove_profile, hex, hdir, hmark, resolve_rel, isDirAt_append_cons_self,
      List.append_assoc]
  exact ⟨_, h_eq, fun e he => rmtree_clears e he, rfl⟩

/-- Concrete world for the C6 witness. -/
def wC6 : World :=
  { fs := [⟨["profiles"], true⟩, ⟨["profiles", "default"], true⟩,
           ⟨["profiles", "default", "a.txt"], false⟩],
    cwd := ["work"], log := [] }

/-- C6 witness: the copy-failure conclusion at a concrete world, with one
partially copied file. -/
theorem checkout_copy_failure_cleans_up_witness :
    wC6.fs.isDirAt (resolve wC6.cwd ⟨true, ["profiles", "default"]⟩) = true ∧
    (∃ w', init_profile wC6 ⟨true, ["profiles", "default"]⟩ "u6" false
        [(["a.txt"], false)] [] = .ok (w', ⟨false, []⟩) ∧
      (∀ e ∈ w'.fs, (wC6.cwd ++ ["tmp:" ++ "u6"]).isPrefixOf e.path = false) ∧
      w'.log = wC6.log ++
        [pathStr (resolve wC6.cwd ⟨true, ["profiles", "default"]⟩) ++
          " could not be copied to be used as a browser profile.",
         "shutil.Error",
         "Deleting temporary profile " ++ pathStr (wC6.cwd ++ ["tmp:" ++ "u6"]) ++
          " ..."]) :=
  ⟨rfl, checkout_copy_failure_cleans_up wC6 ⟨true, ["profiles", "default"]⟩ "u6"
    [(["a.txt"], false)] rfl⟩

/-- The browser context opened by `WorkerSession._init_context`: either a
persistent-profile context (firefox `launch_persistent_context` with the
absolute profile path as `user_data_dir`) or an ephemeral context
(`launch(...).new_context()` on the named engine). -/
inductive BrowserContext where
  | persistentContext (user_data_dir : AbsPath)
  | ephemeralContext (engine : Name)
deriving DecidableEq, Repr

/-- Embedding of `WorkerSession._init_context` (worker_session.py),
together with the `os.path.abspath(profile)` computed in `__init__`:
firefox with a truthy profile string launches a persistent context on the
absolute profile path, firefox without one launches an ephemeral firefox
context, chrome always launches an ephemeral chromium context, and any
other browser name raises `ValueError` (the realization of
`UnsupportedBrowserError`). -/
def WorkerSession.initContext (browser_name : Name) (profile : RawPath)
    (cwd : AbsPath) : Except PyError BrowserContext :=
  if browser_name == "firefox" then
    if profile.truthyStr then
      .ok (.persistentContext (resolve cwd profile))
    else
      .ok (.ephemeralContext "firefox")
  else if browser_name == "chrome" then
    .ok (.ephemeralContext "chromium")
  else
    .error (.valueError "Browser must be 'firefox' or 'chrome'")

/-- C9 counterexample: chrome is a supported browser kind, and with a lease
path present (`/profiles/default`, a truthy profile string) the context
launched is still ephemeral, not persistent. -/
theorem chrome_ignores_profile_counterexample :
    WorkerSession.initContext "chrome" ⟨true, ["profiles", "default"]⟩ ["work"] =
      .ok (.ephemeralContext "chromium") := rfl

/-- C9 amended: firefox launches a persistent-profile context exactly when
a lease path is present and an ephemeral context otherwise; chrome always
launches an ephemeral context, whether or not a lease path is present; any
other browser kind fails with `ValueError` (`UnsupportedBrowserError`). -/
theorem init_context_cases (profile : RawPath) (cwd : AbsPath) (b : Name) :
    (WorkerSession.initContext "firefox" profile cwd =
      if profile.truthyStr then .ok (.persistentContext (resolve cwd profile))
      else .ok (.ephemeralContext "firefox")) ∧
    (WorkerSession.initContext "chrome" profile cwd =
      .ok (.ephemeralContext "chromium")) ∧
    (b ≠ "firefox" → b ≠ "chrome" →
      WorkerSession.initContext b profile cwd =
        .error (.valueError "Browser must be 'firefox' or 'chrome'")) := by
  refine ⟨?_, rfl, fun hf hc => ?_⟩
  · rw [WorkerSession.initContext]
    simp
  · rw [WorkerSession.initContext]
    simp [hf, hc]

/-- C9 witness: the three cases instantiated, with the unsupported kind
`"safari"`. -/
theorem init_context_cases_witness :
    (WorkerSession.initContext "firefox" ⟨true, ["profiles", "default"]⟩ ["work"] =
      if RawPath.truthyStr ⟨true, ["profiles", "default"]⟩ then
        .ok (.persistentContext (resolve ["work"] ⟨true, ["profiles", "default"]⟩))
      else .ok (.ephemeralContext "firefox")) ∧
    (WorkerSession.initContext "chrome" ⟨true, ["profiles", "default"]⟩ ["work"] =
      .ok (.ephemeralContext "chromium")) ∧
    ("safari" ≠ "firefox" → "safari" ≠ "chrome" →
      WorkerSession.initContext "safari" ⟨true, ["profiles", "default"]⟩ ["work"] =
        .error (.valueError "Browser must be 'firefox' or 'chrome'")) :=
  init_context_cases ⟨true, ["profiles", "default"]⟩ ["work"] "safari"

/-- The observable teardown steps, in the order they happen. -/
inductive ShutdownEvent where
  | releasedLease (p : RawPath)
  | closedContext
  | closeErrorLogged
  | stoppedDriver
deriving DecidableEq, Repr

/-- Embedding of `WorkerSession.close` (worker_session.py): try to close
the browser context, logging and swallowing the exception when the close
raises (`closeRaises` oracle), then stop the playwright driver; the method
itself never raises. -/
def WorkerSession.closeEvents (closeRaises : Bool) : List ShutdownEvent :=
  (if closeRaises then [.closeErrorLogged] else [.closedContext]) ++ [.stoppedDriver]

/-- The application state the shutdown hook reads and writes. -/
structure AppState where
  in_use_profile_path : RawPath
  worker_session : Option WorkerSessionObj
deriving DecidableEq, Repr

/-- Embedding of `ChaninaApplication._shutdown_worker` (chanina.py): when
the stored lease string is truthy, call `remove_profile` on it first (an
exception there propagates and aborts the rest of the hook); then, when a
session object exists, close it and clear the reference. Returns the new
application state, the new world, and the ordered trace of teardown
steps. -/
def shutdown_worker (st : AppState) (w : World) (errs : List AbsPath)
    (closeRaises : Bool) :
    Except PyError (AppState × World × List ShutdownEvent) :=
  let step1 : Except PyError (World × List ShutdownEvent) :=
    if st.in_use_profile_path.truthyStr then
      match remove_profile w st.in_use_profile_path errs with
      | .ok w' => .ok (w', [.releasedLease st.in_use_profile_path])
      | .error e => .error e
    else
      .ok (w, [])
  match step1 with
  | .error e => .error e
  | .ok (w', evs) =>
    match st.worker_session with
    | some _ =>
        .ok ({ st with worker_session := none }, w',
             evs ++ WorkerSession.closeEvents closeRaises)
    | none => .ok (st, w', evs)

/-- Concrete state for the C7 counterexample: a temporary lease on disk and
a live session. -/
def stC7 : AppState :=
  { in_use_profile_path := ⟨false, ["tmp:u7"]⟩,
    worker_session := some ⟨"firefox", true, ⟨false, ["tmp:u7"]⟩⟩ }

/-- Concrete world for the C7 counterexample. -/
def wC7 : World :=
  { fs := [⟨["work"], true⟩, ⟨["work", "tmp:u7"], true⟩],
    cwd := ["work"], log := [] }

/-- The world after the C7 shutdown released the lease. -/
def wC7' : World :=
  { fs := [⟨["work"], true⟩],
    cwd := ["work"],
    log := ["Deleting temporary profile /work/tmp:u7 ..."] }

/-- C7 counterexample: at a concrete shutdown (temporary lease present,
live session, no close-time error) the first recorded teardown step is the
lease release, and the context close and driver stop happen after it — the
lease is not released only after the driver stops, as the claim states. -/
theorem shutdown_order_counterexample :
    shutdown_worker stC7 wC7 [] false =
      .ok ({ stC7 with worker_session := none }, wC7',
           [.releasedLease ⟨false, ["tmp:u7"]⟩, .closedContext, .stoppedDriver]) ∧
    ([ShutdownEvent.releasedLease ⟨false, ["tmp:u7"]⟩, .closedContext,
      .stoppedDriver].head? = some (.releasedLease ⟨false, ["tmp:u7"]⟩)) :=
  ⟨rfl, rfl⟩

/-- C7 amended: on every worker shutdown with a truthy lease path that
resolves to an existing directory carrying the `"tmp:"` marker and with a
live session, the hook first releases the ProfileLease (deleting the leased
tree), and only then runs the Session teardown: the browser context close
is attempted (any close-time error is logged and swallowed, for every value
of the close-error oracle), after it the driver process is stopped, and the
Session reference held by the application is cleared; the hook itself never
raises. -/
theorem shutdown_releases_then_closes
    (st : AppState) (w : World) (errs : List AbsPath) (closeRaises : Bool)
    (s : WorkerSessionObj)
    (htruthy : st.in_use_profile_path.truthyStr = true)
    (hdir : w.fs.isDirAt (resolve w.cwd st.in_use_profile_path) = true)
    (hmark : containsTmpMarker (resolve w.cwd st.in_use_profile_path) = true)
    (hsess : st.worker_session = some s) :
    shutdown_worker st w errs closeRaises =
      .ok ({ st with worker_session := none },
           { w with
              fs := w.fs.rmtree (resolve w.cwd st.in_use_profile_path) errs,
              log := w.log ++
                ["Deleting temporary profile " ++
                  pathStr (resolve w.cwd st.in_use_profile_path) ++ " ..."] },
           [.releasedLease st.in_use_profile_path] ++
             (if closeRaises then [.closeErrorLogged] else [.closedContext]) ++
             [.stoppedDriver]) := by
  rw [shutdown_worker, remove_profile]
  simp [htruthy, hdir, hmark, hsess, WorkerSession.closeEvents]

/-- C7 witness: the amended shutdown ordering at the concrete state, with a
close-time error being swallowed. -/
theorem shutdown_releases_then_closes_witness :
    stC7.in_use_profile_path.truthyStr = true ∧
    wC7.fs.isDirAt (resolve wC7.cwd stC7.in_use_profile_path) = true ∧
    containsTmpMarker (resolve wC7.cwd stC7.in_use_profile_path) = true ∧
    stC7.worker_session = some ⟨"firefox", true, ⟨false, ["tmp:u7"]⟩⟩ ∧
    shutdown_worker stC7 wC7 [] true =
      .ok ({ stC7 with worker_session := none },
           { wC7 with
              fs := wC7.fs.rmtree (resolve wC7.cwd stC7.in_use_profile_path) [],
              log := wC7.log ++
                ["Deleting temporary profile " ++
                  pathStr (resolve wC7.cwd stC7.in_use_profile_path) ++ " ..."] },
           [.releasedLease stC7.in_use_profile_path] ++
             (if true then [.closeErrorLogged] else [.closedContext]) ++
             [.stoppedDriver]) :=
  ⟨rfl, rfl, rfl, rfl,
    shutdown_releases_then_closes stC7 wC7 [] true
      ⟨"firefox", true, ⟨false, ["tmp:u7"]⟩⟩ rfl rfl rfl rfl⟩

end Chanina
